import Mathlib

/-!
Verification development for the swim-system-python repository.

Shallow embedding of:
- `swimai/recon/utils.py` (`ReconUtils`, `OutputMessage`, `InputMessage`)
- `swimai/recon/writers.py` (the Recon writer classes)
- `swimos/client/_connections.py` (retry strategies, connection pool)
- `swimai/client/downlinks/downlinks.py` (`ValueDownlinkView.get` / `set`)

Python machine behaviour is modelled explicitly: a raised exception becomes
`Except.error`, Python `None` becomes `Option.none` or a dedicated
constructor, truthiness becomes an explicit `pyTruthy` function.
Python integers are unbounded, so they are embedded as `Int`; finite Python
float VALUES are dyadic rationals and are embedded as a pair `m / 2 ^ k`
(non-finite floats do not occur in any claim and are not modelled).
-/

/-- Exceptions that the embedded code can raise. -/
inductive PyErr where
  | typeError
  | attributeError
  | runtimeError
  | indexError
  deriving DecidableEq, Repr

/-- A small universe of Python values: the inputs that reach
`ReconUtils.to_ord` and the classifier functions (`utils.py`), and the
numeric payloads of `NumberWriter` (`writers.py`).  `float m k` denotes the
finite float value `m / 2 ^ k`. -/
inductive PyVal where
  | str (s : String)
  | int (n : Int)
  | float (m : Int) (k : Nat)
  | none
  deriving DecidableEq, Repr

/-- Python truthiness (`if value:`) for the embedded universe:
a string is truthy iff non-empty, a number iff non-zero, `None` is falsy. -/
def pyTruthy : PyVal → Bool
  | .str s => decide (s.length ≠ 0)
  | .int n => decide (n ≠ 0)
  | .float m _ => decide (m ≠ 0)
  | .none => false

/-- Reinject the result of `to_ord` (an `int` or `None`) as a Python value,
as happens inside `is_ident_char` where the converted ordinal is passed on
to `is_digit` and `is_ident_start_char`. -/
def optToPy : Option Int → PyVal
  | some n => .int n
  | Option.none => .none

namespace ReconUtils

/-- `ReconUtils.to_ord` (utils.py lines 85-98): a `str` goes through the
builtin `ord`, which raises `TypeError` unless the string has exactly one
character; an `int` is returned unchanged; anything else yields `None`. -/
def to_ord : PyVal → Except PyErr (Option Int)
  | .str s =>
    match s.toList with
    | [c] => .ok (some (c.toNat : Int))
    | _ => .error .typeError
  | .int n => .ok (some n)
  | _ => .ok Option.none

/-- `ReconUtils.is_ident_start_char` (utils.py lines 6-20): falsy input
returns `False`; otherwise the input is converted with `to_ord` and the
chained comparison `ord('A') <= char <= ord('Z') or char == ord('_') or
ord('a') <= char <= ord('z')` runs; comparing `None` with `<=` raises
`TypeError`. -/
def is_ident_start_char (v : PyVal) : Except PyErr Bool :=
  if pyTruthy v then
    match to_ord v with
    | .error e => .error e
    | .ok (some n) => .ok (decide ((65 ≤ n ∧ n ≤ 90) ∨ n = 95 ∨ (97 ≤ n ∧ n ≤ 122)))
    | .ok Option.none => .error .typeError
  else
    .ok false

/-- `ReconUtils.is_digit` (utils.py lines 71-83): falsy input returns
`False`; otherwise `ord('0') <= char <= ord('9')` runs on the `to_ord`
result; comparing `None` with `<=` raises `TypeError`. -/
def is_digit (v : PyVal) : Except PyErr Bool :=
  if pyTruthy v then
    match to_ord v with
    | .error e => .error e
    | .ok (some n) => .ok (decide (48 ≤ n ∧ n ≤ 57))
    | .ok Option.none => .error .typeError
  else
    .ok false

/-- `ReconUtils.is_space` (utils.py lines 57-69): falsy input returns
`False`; otherwise `char == ord(' ') or char == ord('\t')` runs on the
`to_ord` result; `==` against `None` is simply `False`, no error. -/
def is_space (v : PyVal) : Except PyErr Bool :=
  if pyTruthy v then
    match to_ord v with
    | .error e => .error e
    | .ok o => .ok (decide (o = some 32 ∨ o = some 9))
  else
    .ok false

/-- `ReconUtils.is_ident_char` (utils.py lines 22-35): falsy input returns
`False`; otherwise the converted ordinal `char` is tested with
`char == ord('-') or is_digit(char) or is_ident_start_char(char)`,
short-circuiting left to right; the recursive calls receive the already
converted ordinal (an `int` or `None`). -/
def is_ident_char (v : PyVal) : Except PyErr Bool :=
  if pyTruthy v then
    match to_ord v with
    | .error e => .error e
    | .ok o =>
      if o = some 45 then .ok true
      else
        match is_digit (optToPy o) with
        | .error e => .error e
        | .ok true => .ok true
        | .ok false => is_ident_start_char (optToPy o)
  else
    .ok false

/-- Character-level form of the comparison in `is_ident_start_char`,
specialised to a real character ordinal. -/
def identStartCharB (c : Char) : Bool :=
  decide ((65 ≤ (c.toNat : Int) ∧ (c.toNat : Int) ≤ 90) ∨ (c.toNat : Int) = 95
    ∨ (97 ≤ (c.toNat : Int) ∧ (c.toNat : Int) ≤ 122))

/-- Character-level form of the test in `is_ident_char`, specialised to a
real character ordinal. -/
def identCharB (c : Char) : Bool :=
  decide ((c.toNat : Int) = 45) || decide (48 ≤ (c.toNat : Int) ∧ (c.toNat : Int) ≤ 57)
    || identStartCharB c

/-- The loop `for char in value: if not is_ident_char(char): return False`
of `ReconUtils.is_ident` (utils.py lines 51-53); each iteration feeds a
one-character string into `is_ident_char`. -/
def ident_chars_loop : List Char → Except PyErr Bool
  | [] => .ok true
  | c :: cs =>
    match is_ident_char (.str (String.singleton c)) with
    | .error e => .error e
    | .ok true => ident_chars_loop cs
    | .ok false => .ok false

/-- `ReconUtils.is_ident` (utils.py lines 37-55): empty strings are
rejected, then the first character must pass `is_ident_start_char` and
every character (including the first) must pass `is_ident_char`. -/
def is_ident (s : String) : Except PyErr Bool :=
  match s.toList with
  | [] => .ok false
  | c :: cs =>
    match is_ident_start_char (.str (String.singleton c)) with
    | .error e => .error e
    | .ok false => .ok false
    | .ok true => ident_chars_loop (c :: cs)

end ReconUtils

/-- Pure form of `ReconUtils.is_ident`: head test plus a scan of every
character (the source re-checks the first character in its loop). -/
def is_identB (s : String) : Bool :=
  match s.toList with
  | [] => false
  | c :: cs => ReconUtils.identStartCharB c && (c :: cs).all ReconUtils.identCharB

/-- The claim's start class `[A-Za-z_]`, read on code points. -/
def specStartClass (c : Char) : Prop :=
  ('A'.toNat ≤ c.toNat ∧ c.toNat ≤ 'Z'.toNat)
    ∨ ('a'.toNat ≤ c.toNat ∧ c.toNat ≤ 'z'.toNat) ∨ c.toNat = '_'.toNat

/-- The claim's continuation class `[A-Za-z0-9_-]`, read on code points. -/
def specContClass (c : Char) : Prop :=
  specStartClass c ∨ ('0'.toNat ≤ c.toNat ∧ c.toNat ≤ '9'.toNat) ∨ c.toNat = '-'.toNat

instance (c : Char) : Decidable (specStartClass c) := by
  unfold specStartClass; infer_instance

instance (c : Char) : Decidable (specContClass c) := by
  unfold specContClass specStartClass; infer_instance

/-- Values that are "not a character": neither a Python `str` nor an `int`. -/
def nonCharacter : PyVal → Bool
  | .str _ => false
  | .int _ => false
  | _ => true

/-- Python string indexing `message[index]` for a non-negative index:
raises `IndexError` when the index is out of range. -/
def pyStrIndex (l : List Char) (i : Nat) : Except PyErr Char :=
  if h : i < l.length then .ok (l.get ⟨i, h⟩) else .error .indexError

/-- `InputMessage` (utils.py lines 152-188): a character cursor over a
message.  `index` starts at `0` and is only ever incremented, so it is
embedded as a `Nat`; the message is embedded as its character list. -/
structure InputMessage where
  message : List Char
  index : Nat

namespace InputMessage

/-- `InputMessage.is_cont` (utils.py lines 178-187): `False` iff the index
points at or beyond the end of the message. -/
def is_cont (m : InputMessage) : Bool :=
  if m.index ≥ m.message.length then false else true

/-- `InputMessage.head` (utils.py lines 158-167): the character under the
index as a one-character string when `is_cont`, else the empty string.
The subscript `self.message[self.index]` is the fallible operation. -/
def head (m : InputMessage) : Except PyErr String :=
  if is_cont m then
    match pyStrIndex m.message m.index with
    | .error e => .error e
    | .ok c => .ok (String.singleton c)
  else
    .ok ""

/-- `InputMessage.step` (utils.py lines 169-176): unconditionally increment
the index by one, then return `head` of the new state. -/
def step (m : InputMessage) : Except PyErr (String × InputMessage) :=
  match head { m with index := m.index + 1 } with
  | .error e => .error e
  | .ok s => .ok (s, { m with index := m.index + 1 })

end InputMessage

/-- The numeric payload of a `Num` value (`Union[int, float]` in the
source).  `float m k` denotes the finite float value `m / 2 ^ k`. -/
inductive PyNum where
  | int (n : Int)
  | float (m : Int) (k : Nat)

/-- Python truthiness of a number: non-zero. -/
def pyNumTruthy : PyNum → Bool
  | .int n => decide (n ≠ 0)
  | .float m _ => decide (m ≠ 0)

/-- Python `str()` on a finite float value `m / 2 ^ k`, rendered as its
exact decimal expansion (a dyadic rational always has one) with trailing
zeros trimmed and at least one fractional digit kept, matching the shape
`intpart.fracpart` with an optional leading minus that Python prints. -/
def pyFloatStr (m : Int) (k : Nat) : String :=
  let a : Nat := m.natAbs * 5 ^ k
  let s := toString a
  let s := if s.length ≤ k then String.mk (List.replicate (k + 1 - s.length) '0') ++ s else s
  let ip := s.take (s.length - k)
  let fp := s.drop (s.length - k)
  let fpt := String.mk ((fp.toList.reverse.dropWhile (fun c => c == '0')).reverse)
  let fp2 := if fpt = "" then "0" else fpt
  (if m < 0 then "-" else "") ++ ip ++ "." ++ fp2

/-- Python `str()` on the embedded numbers; on an `int` this is the plain
decimal representation with an optional leading minus. -/
def pyNumStr : PyNum → String
  | .int n => toString n
  | .float m k => pyFloatStr m k

namespace NumberWriter

/-- `NumberWriter.write` (writers.py lines 177-186): start from an empty
`OutputMessage` and append `str(value)` only when the value is truthy, so
a zero value yields the empty string. -/
def write (v : PyNum) : String :=
  if pyNumTruthy v then "" ++ pyNumStr v else ""

end NumberWriter

namespace BoolWriter

/-- `BoolWriter.write` (writers.py lines 189-197). -/
def write (b : Bool) : String :=
  if b then "true" else "false"

end BoolWriter

namespace IdentWriter

/-- `IdentWriter.write` (writers.py lines 200-209): an empty output plus
the value when the value is truthy. -/
def write (s : String) : String :=
  if s.length ≠ 0 then "" ++ s else ""

end IdentWriter

namespace StringWriter

/-- `StringWriter.write` (writers.py lines 163-174): a quote, the value
when truthy, and a closing quote. -/
def write (s : String) : String :=
  (if s.length ≠ 0 then "\"" ++ s else "\"") ++ "\""

end StringWriter

/-!
The Item model of `swimai/structures`.  The structures module
(`structs.py`) is not under `src/`, so the shape is modelled from the spec
(§3): Item = Value | Field; Value = Record | Text | Num | Bool | Extant |
Absent; Field = Attr(key, value) | Slot(key, value); a Record holds an
ordered sequence of Items.  The list of a record is a mutual inductive so
that the writer can recurse structurally.
-/
mutual
/-- Modelled from the spec (§3): the Item sum of the structures module. -/
inductive Item where
  | absent
  | extant
  | text (s : String)
  | num (v : PyNum)
  | bool (b : Bool)
  | record (items : ItemList)
  | attr (key : Item) (value : Item)
  | slot (key : Item) (value : Item)
inductive ItemList where
  | nil
  | cons (head : Item) (tail : ItemList)
end

/-- Number of items of an `ItemList`. -/
def ItemList.length : ItemList → Nat
  | .nil => 0
  | .cons _ t => 1 + ItemList.length t

/-- Modelled from the spec: `structs.py` is not under `src/`; §4.A gives
Values a `size` operation, "(item count)".  A Record's size is its number
of items; non-record Values hold no items, so their size is `0`.  Only the
Record case is exercised by the claims. -/
def Item.size : Item → Nat
  | .record items => items.length
  | _ => 0

/-- The identity test `value != Extant.get_extant()` of `AttrWriter.write`:
`Extant` is a process-wide singleton compared by identity (spec §3). -/
def Item.isExtant : Item → Bool
  | .extant => true
  | _ => false

/-- `ReconWriter.write_text` (writers.py lines 10-15): idents are written
bare, anything else quoted.  The `is_ident` scan is the fallible embedded
classifier. -/
def write_text (s : String) : Except PyErr String :=
  match ReconUtils.is_ident s with
  | .error e => .error e
  | .ok true => .ok (IdentWriter.write s)
  | .ok false => .ok (StringWriter.write s)

/-- The output assembly of `AttrWriter.write` (writers.py lines 114-139)
given the already computed pieces: `kt` is the key writing (`None` falsy,
any `OutputMessage` truthy), `vIsExtant` the identity test against
`Extant`, `vsize` the inner value's `size`, `vt` the value writing.
Note the early `return output` right after `(` when `vsize = 0`. -/
def attr_string (kt : Option String) (vIsExtant : Bool) (vsize : Nat)
    (vt : Option String) : String :=
  let o1 := "@"
  let o2 := match kt with
    | some s => o1 ++ s
    | Option.none => o1
  if vIsExtant then o2
  else
    let o3 := o2 ++ "("
    if vsize = 0 then o3
    else
      let o4 := match vt with
        | some s => o3 ++ s
        | Option.none => o3
      o4 ++ ")"

/-- The output assembly of `SlotWriter.write` (writers.py lines 142-160):
key writing if truthy, a colon, value writing if truthy. -/
def slot_string (kt : Option String) (vt : Option String) : String :=
  (match kt with
    | some s => s
    | Option.none => "")
  ++ ":"
  ++ (match vt with
    | some s => s
    | Option.none => "")

/-- `OutputMessage.last_char` (utils.py lines 114-119): the last character
as a one-character string, or the empty string. -/
def last_char (s : String) : String :=
  match s.toList.getLast? with
  | some c => String.singleton c
  | Option.none => ""

/-- The separator logic at the top of the `else` branch of
`BlockWriter.write` (writers.py lines 93-99): a comma when not first, or
an opening brace when the first item is a Slot and prior output exists
that does not end in `(`. -/
def block_sep (out : String) (first : Bool) (ib : Bool) (isSlot : Bool) : String × Bool :=
  if !first then (out ++ ",", ib)
  else if isSlot then
    if out.length > 0 ∧ last_char out ≠ "(" then (out ++ "\x7b", true) else (out, ib)
  else (out, ib)

/-- The `if item_text:` guard of `BlockWriter.write` (writers.py lines
105-106): append only a truthy (non-empty) item text. -/
def append_if (out : String) (s : String) : String :=
  if s.length ≠ 0 then out ++ s else out

/-!
The mutually recursive core of the writer.  `write_value` embeds
`ReconWriter.write_value` / `ReconWriter.write_record` (writers.py lines
50-65): it returns `none` when the Python method returns `None` (an
`Extant` value, an empty Record, or a non-Value argument) and `some text`
for a produced `OutputMessage`.  `write_block` embeds `BlockWriter.write`
(writers.py lines 80-111) with the loop turned into recursion over the
item list, carrying the accumulated output, the `first` flag and the
`in_braces` flag; the calls `writer.write_item(item)` inside the loop are
inlined (see `write_item` below for the stand-alone form) so that the
recursion stays structural.
-/
mutual

def write_value : Item → Except PyErr (Option String)
  | .record items =>
    -- write_record: `if record.size > 0:` then BlockWriter else implicit None
    if items.length > 0 then
      match write_block items "" true false with
      | .error e => .error e
      | .ok s => .ok (some s)
    else .ok Option.none
  | .text s =>
    match write_text s with
    | .error e => .error e
    | .ok t => .ok (some t)
  | .num v => .ok (some (NumberWriter.write v))
  | .bool b => .ok (some (BoolWriter.write b))
  | .absent => .ok (some "")
  | .extant => .ok Option.none
  | .attr _ _ => .ok Option.none
  | .slot _ _ => .ok Option.none

def write_block : ItemList → String → Bool → Bool → Except PyErr String
  | .nil, out, _, ib => .ok (if ib then out ++ "\x7d" else out)
  | .cons item rest, out, first, ib =>
    match item with
    | .attr k v =>
      -- `if isinstance(item, Attr)`: no separator, `first` unchanged
      match write_value k with
      | .error e => .error e
      | .ok kt =>
        if v.isExtant then
          write_block rest (append_if out (attr_string kt true 0 Option.none)) first ib
        else
          match write_value v with
          | .error e => .error e
          | .ok vt =>
            write_block rest (append_if out (attr_string kt false v.size vt)) first ib
    | .text s =>
      -- `elif isinstance(item, Value) and not isinstance(item, Record)`
      match write_text s with
      | .error e => .error e
      | .ok t => write_block rest (append_if out t) first ib
    | .num v => write_block rest (append_if out (NumberWriter.write v)) first ib
    | .bool b => write_block rest (append_if out (BoolWriter.write b)) first ib
    | .absent => write_block rest (append_if out "") first ib
    | .extant =>
      -- write_item(Extant): write_value gives None and `.message` raises
      .error .attributeError
    | .slot k v =>
      -- the `else` branch with a Slot: separator first, then the item text
      match block_sep out first ib true with
      | (out1, ib1) =>
        match write_value k with
        | .error e => .error e
        | .ok kt =>
          match write_value v with
          | .error e => .error e
          | .ok vt =>
            write_block rest (append_if out1 (slot_string kt vt)) false ib1
    | .record items2 =>
      -- the `else` branch with a Record: separator first, then the item text
      match block_sep out first ib false with
      | (out1, ib1) =>
        if items2.length > 0 then
          match write_block items2 "" true false with
          | .error e => .error e
          | .ok s => write_block rest (append_if out1 s) false ib1
        else
          -- write_item(empty Record): write_value gives None, `.message` raises
          .error .attributeError

end

/-- `AttrWriter.write` (writers.py lines 114-139): `@`, then the key
writing if truthy, then — unless the value is `Extant` — `(`, the value
writing and `)`; the early `return` when `value.size == 0` is kept. -/
def write_attr (key value : Item) : Except PyErr String :=
  match write_value key with
  | .error e => .error e
  | .ok kt =>
    if value.isExtant then .ok (attr_string kt true 0 Option.none)
    else
      match write_value value with
      | .error e => .error e
      | .ok vt => .ok (attr_string kt false value.size vt)

/-- `SlotWriter.write` (writers.py lines 142-160). -/
def write_slot (key value : Item) : Except PyErr String :=
  match write_value key with
  | .error e => .error e
  | .ok kt =>
    match write_value value with
    | .error e => .error e
    | .ok vt => .ok (slot_string kt vt)

/-- `ReconWriter.write_item` (writers.py lines 29-42): Attrs and Slots go
through their writers; a Value goes through `write_value` and then
`.message` is read, which raises `AttributeError` when `write_value`
returned `None` (an `Extant` or an empty Record). -/
def write_item : Item → Except PyErr String
  | .attr k v => write_attr k v
  | .slot k v => write_slot k v
  | v =>
    match write_value v with
    | .error e => .error e
    | .ok (some s) => .ok s
    | .ok Option.none => .error .attributeError

-- sanity evaluations of the writer embedding

/-- Accumulate a run of decimal digit characters into an integer. -/
def digitsToInt (l : List Char) : Int :=
  l.foldl (fun acc d => acc * 10 + ((d.toNat : Int) - 48)) 0

/-- Modelled from the spec: the Recon parser (`swimai/recon/parsers.py`)
is not under `src/`; only its unit tests are.  This partial model covers
the literal subset the claims need, following §4.B: leading spaces and
tabs separate tokens and are skipped; an empty input produces `Absent`
(grammar rule `item := ... | empty`; asserted by the repository test
`test_parse_literal_empty_empty_builder`); a run of digits produces an
integer `Num`, leading zeros tolerated (grammar rule
`number := '-'? digits ('.' digits)?`; asserted by
`test_parse_number_leading_zero`); an identifier produces a `Text`.
Inputs outside this subset are not modelled and give `none`. -/
def parse_literal_model (s : String) : Option Item :=
  let cs := s.toList.dropWhile (fun c => c == ' ' || c == '\t')
  match cs with
  | [] => some .absent
  | c :: _ =>
    if decide ('0'.toNat ≤ c.toNat ∧ c.toNat ≤ '9'.toNat) then
      if cs.all (fun d => decide ('0'.toNat ≤ d.toNat ∧ d.toNat ≤ '9'.toNat)) then
        some (.num (.int (digitsToInt cs)))
      else Option.none
    else if ReconUtils.identStartCharB c && cs.all ReconUtils.identCharB then
      some (.text (String.mk cs))
    else Option.none

/-!
Retry strategies and the connection pool, from
`swimos/client/_connections.py`.  `retry()` both sleeps and mutates the
counter, so it is embedded as a function from the strategy state to the
returned boolean, the slept duration (`none` when no sleep happens) and
the new state.
-/
/-- The base `RetryStrategy.retry` (lines 30-38): returns `False`
immediately, sleeps nothing, has no state. -/
def RetryStrategy.retry : Bool × Option Int := (false, Option.none)

/-- `IntervalStrategy` state (lines 41-47): an optional retry limit, the
fixed delay and the retry counter, which starts at `0` and is only ever
incremented or reset to `0`. -/
structure IntervalStrategy where
  retries_limit : Option Int
  delay : Int
  retries : Nat

/-- `IntervalStrategy.retry` (lines 49-55): when the limit is absent or
`retries_limit > retries`, sleep `delay`, increment the counter and return
`True`; otherwise return `False`. -/
def IntervalStrategy.retry (s : IntervalStrategy) : Bool × Option Int × IntervalStrategy :=
  match s.retries_limit with
  | Option.none => (true, some s.delay, { s with retries := s.retries + 1 })
  | some l =>
    if l > (s.retries : Int) then (true, some s.delay, { s with retries := s.retries + 1 })
    else (false, Option.none, s)

/-- `IntervalStrategy.reset` (lines 57-58). -/
def IntervalStrategy.reset (s : IntervalStrategy) : IntervalStrategy :=
  { s with retries := 0 }

/-- `ExponentialStrategy` state (lines 61-67). -/
structure ExponentialStrategy where
  retries_limit : Option Int
  max_interval : Int
  retries : Nat

/-- `ExponentialStrategy.retry` (lines 69-75): when the limit is absent or
`retries_limit >= retries` (note: non-strict, unlike `IntervalStrategy`),
sleep `min(2 ** retries, max_interval)`, increment the counter and return
`True`; otherwise return `False`. -/
def ExponentialStrategy.retry (s : ExponentialStrategy) : Bool × Option Int × ExponentialStrategy :=
  match s.retries_limit with
  | Option.none =>
    (true, some (min ((2 : Int) ^ s.retries) s.max_interval), { s with retries := s.retries + 1 })
  | some l =>
    if l ≥ (s.retries : Int) then
      (true, some (min ((2 : Int) ^ s.retries) s.max_interval), { s with retries := s.retries + 1 })
    else (false, Option.none, s)

/-- `ExponentialStrategy.reset` (lines 77-78). -/
def ExponentialStrategy.reset (s : ExponentialStrategy) : ExponentialStrategy :=
  { s with retries := 0 }

/-- The retry-strategy variants, as threaded from the pool into each new
connection (`_ConnectionPool.__init__`, line 86, and `_get_connection`,
line 107). -/
inductive AnyRetryStrategy where
  | base
  | interval (s : IntervalStrategy)
  | exponential (s : ExponentialStrategy)

/-- `reset()` on whichever strategy the connection holds. -/
def AnyRetryStrategy.reset : AnyRetryStrategy → AnyRetryStrategy
  | .base => .base
  | .interval s => .interval s.reset
  | .exponential s => .exponential s.reset

/-- `_ConnectionStatus` (lines 353-357). -/
inductive ConnectionStatus where
  | CLOSED
  | CONNECTING
  | IDLE
  | RUNNING
  deriving DecidableEq

/-- The data a `_DownlinkView` contributes to the connection pool
(`_add_downlink_view`, lines 130-133): its host URI, scheme and the two
persistence flags. -/
structure DownlinkViewRef where
  host_uri : String
  scheme : String
  keep_linked : Bool
  keep_synced : Bool

/-- `_WSConnection` state (lines 159-176).  `has_websocket` is
`self.websocket is not None`; the subscriber manager pool is modelled as
the list of subscribed view refs (the manager indirection does not touch
any field this development reasons about). -/
structure WSConnection where
  host_uri : String
  scheme : String
  keep_linked : Bool
  keep_synced : Bool
  status : ConnectionStatus
  has_websocket : Bool
  auth_message : Option String
  init_message : Option String
  retry_strategy : AnyRetryStrategy
  subscribers : List DownlinkViewRef

/-- `_WSConnection.__init__` (lines 159-176): a fresh connection starts
`CLOSED`, with no websocket, no auth or init message and no subscribers. -/
def mkWSConnection (host scheme : String) (kl ks : Bool) (rs : AnyRetryStrategy) : WSConnection :=
  ⟨host, scheme, kl, ks, .CLOSED, false, Option.none, Option.none, rs, []⟩

/-- `_WSConnection.should_reconnect` (lines 211-217). -/
def WSConnection.should_reconnect (c : WSConnection) : Bool :=
  c.keep_linked || c.keep_synced

/-- The success path of `_WSConnection._open` (lines 178-200) when the
websocket handshake succeeds on the first attempt: the websocket is set,
the retry counter is reset and the status becomes `IDLE`; a non-`CLOSED`
connection is left unchanged (the method returns at once). -/
def WSConnection.open_success (c : WSConnection) : WSConnection :=
  if c.status = .CLOSED then
    { c with status := .IDLE, has_websocket := true,
             retry_strategy := c.retry_strategy.reset }
  else c

/-- `_WSConnection._subscribe` (lines 255-266): open the connection when
this is the first subscriber (here with the handshake succeeding), then
register the view.  The view's `did_open` callback is outside this model. -/
def WSConnection._subscribe (c : WSConnection) (v : DownlinkViewRef) : WSConnection :=
  let c1 := if c.subscribers.length = 0 then c.open_success else c
  { c1 with subscribers := c1.subscribers ++ [v] }

/-- Association-list read of the pool dictionary `__connections`. -/
def assocGet : List (String × WSConnection) → String → Option WSConnection
  | [], _ => Option.none
  | (k, v) :: rest, h => if k = h then some v else assocGet rest h

/-- Association-list write of the pool dictionary `__connections`. -/
def assocPut : List (String × WSConnection) → String → WSConnection → List (String × WSConnection)
  | [], h, c => [(h, c)]
  | (k, v) :: rest, h, c => if k = h then (k, c) :: rest else (k, v) :: assocPut rest h c

/-- `_ConnectionPool` state (lines 81-86): the host-keyed connection
dictionary and the default retry strategy threaded into new connections. -/
structure ConnectionPool where
  connections : List (String × WSConnection)
  retry_strategy : AnyRetryStrategy

/-- `_ConnectionPool._get_connection` (lines 92-110): return the pooled
connection for the host unless it is missing or `CLOSED`, in which case a
fresh connection is constructed, stored under the host URI and returned.
No branch opens the websocket. -/
def ConnectionPool._get_connection (p : ConnectionPool) (host scheme : String)
    (kl ks : Bool) : WSConnection × ConnectionPool :=
  match assocGet p.connections host with
  | some c =>
    if c.status = .CLOSED then
      let c2 := mkWSConnection host scheme kl ks p.retry_strategy
      (c2, { p with connections := assocPut p.connections host c2 })
    else (c, p)
  | Option.none =>
    let c2 := mkWSConnection host scheme kl ks p.retry_strategy
    (c2, { p with connections := assocPut p.connections host c2 })

/-- `_ConnectionPool._add_downlink_view` (lines 124-137): resolve the
connection with the view's host, scheme and flags, then subscribe the view
to it.  The Python code mutates the shared connection object in place;
here the updated connection is written back into the pool map. -/
def ConnectionPool._add_downlink_view (p : ConnectionPool) (v : DownlinkViewRef) : ConnectionPool :=
  match ConnectionPool._get_connection p v.host_uri v.scheme v.keep_linked v.keep_synced with
  | (c, p1) =>
    let c2 := WSConnection._subscribe c v
    { p1 with connections := assocPut p1.connections v.host_uri c2 }

/-- Modelled from the spec: `swimai/warp.py` is not under `src/`.  A
`CommandMessage(node_uri, lane_uri, body)` is the `command` envelope with
`node` and `lane` headers and a body Value (spec §3 envelope table and
§4.H, "set(value) constructs a command(node,lane,body) envelope"). -/
structure CommandMessage where
  node_uri : String
  lane_uri : String
  body : PyVal
  deriving DecidableEq, Repr

/-- The state of a `ValueDownlinkModel` (downlinks.py lines 30-43) that
`get`/`set` touch: the current value (`None` at construction, hence
`PyVal.none`) and the `synced` event. -/
structure ValueDownlinkModel where
  value : PyVal
  synced : Bool
  deriving DecidableEq, Repr

/-- What a `get` call can do (downlinks.py lines 174-189): return a value,
raise, or block awaiting the `synced` event (the `wait_sync` path schedules
`model.get_value`, which awaits `synced` before returning, and blocks the
caller on the task result). -/
inductive GetOutcome where
  | value (v : PyVal)
  | raised (e : PyErr)
  | blocked
  deriving DecidableEq, Repr

/-- The state of a `ValueDownlinkView` (downlinks.py lines 111-123) that
`get`/`set` touch, plus the queue of command messages its `set` calls have
scheduled (`self.client.schedule_task(self.send_message, message)`). -/
structure ValueDownlinkView where
  node_uri : String
  lane_uri : String
  is_open : Bool
  model : ValueDownlinkModel
  scheduled : List CommandMessage
  deriving DecidableEq, Repr

/-- `ValueDownlinkView.get` (downlinks.py lines 174-189): on a closed view
raise `RuntimeError('Link is not open!')`; when open, return
`self.model.value` directly if `wait_sync` is false, else block until
synced and then return the model value.  The call writes no state. -/
def ValueDownlinkView.get (view : ValueDownlinkView) (wait_sync : Bool) : GetOutcome :=
  if view.is_open then
    if wait_sync then
      if view.model.synced then .value view.model.value else .blocked
    else .value view.model.value
  else .raised .runtimeError

/-- `ValueDownlinkView.set` (downlinks.py lines 191-201): on a closed view
raise `RuntimeError('Link is not open!')` and change nothing; when open,
construct `CommandMessage(node_uri, lane_uri, value)` and schedule its
send. -/
def ValueDownlinkView.set (view : ValueDownlinkView) (value : PyVal) :
    Except PyErr Unit × ValueDownlinkView :=
  if view.is_open then
    (.ok (), { view with scheduled :=
        view.scheduled ++ [⟨view.node_uri, view.lane_uri, value⟩] })
  else (.error .runtimeError, view)

/-- A one-character string is truthy and `to_ord` returns its ordinal. -/
theorem to_ord_singleton (c : Char) :
    ReconUtils.to_ord (.str (String.singleton c)) = .ok (some (c.toNat : Int)) := rfl

theorem pyTruthy_singleton (c : Char) : pyTruthy (.str (String.singleton c)) = true := rfl

/-- On an `int` input, `is_digit` never raises; the truthiness guard does
not change the result because `0` is not a digit ordinal anyway. -/
theorem is_digit_int (n : Int) :
    ReconUtils.is_digit (.int n) = .ok (decide (48 ≤ n ∧ n ≤ 57)) := by
  by_cases h : n = 0
  · subst h
    simp [ReconUtils.is_digit, pyTruthy, ReconUtils.to_ord]
  · simp [ReconUtils.is_digit, pyTruthy, ReconUtils.to_ord, h]

/-- On an `int` input, `is_ident_start_char` never raises; the truthiness
guard does not change the result because `0` is not in any of the ranges. -/
theorem is_ident_start_char_int (n : Int) :
    ReconUtils.is_ident_start_char (.int n)
      = .ok (decide ((65 ≤ n ∧ n ≤ 90) ∨ n = 95 ∨ (97 ≤ n ∧ n ≤ 122))) := by
  by_cases h : n = 0
  · subst h
    simp [ReconUtils.is_ident_start_char, pyTruthy, ReconUtils.to_ord]
  · simp [ReconUtils.is_ident_start_char, pyTruthy, ReconUtils.to_ord, h]

/-- On a one-character string, `is_ident_start_char` never raises and
computes `identStartCharB`. -/
theorem is_ident_start_char_singleton (c : Char) :
    ReconUtils.is_ident_start_char (.str (String.singleton c))
      = .ok (ReconUtils.identStartCharB c) := rfl

/-- On a one-character string, `is_ident_char` never raises and computes
`identCharB`. -/
theorem is_ident_char_singleton (c : Char) :
    ReconUtils.is_ident_char (.str (String.singleton c))
      = .ok (ReconUtils.identCharB c) := by
  unfold ReconUtils.is_ident_char
  rw [pyTruthy_singleton, to_ord_singleton]
  simp only [if_true]
  by_cases h45 : (c.toNat : Int) = 45
  · simp [h45, ReconUtils.identCharB]
  · have h45b : decide ((c.toNat : Int) = 45) = false := by simp [h45]
    rw [if_neg (by simp [h45])]
    show (match ReconUtils.is_digit (optToPy (some (c.toNat : Int))) with
      | Except.error e => Except.error e
      | Except.ok true => Except.ok true
      | Except.ok false => ReconUtils.is_ident_start_char (optToPy (some (c.toNat : Int))))
      = Except.ok (ReconUtils.identCharB c)
    simp only [optToPy, is_digit_int, is_ident_start_char_int]
    cases h48 : decide (48 ≤ (c.toNat : Int) ∧ (c.toNat : Int) ≤ 57)
    · simp only [ReconUtils.identCharB, ReconUtils.identStartCharB, h45b, h48,
        Bool.false_or]
    · simp only [ReconUtils.identCharB, h48, Bool.or_true, Bool.true_or]

/-- The character-scan loop of `is_ident` computes `List.all identCharB`
and never raises (every scanned item is a one-character string). -/
theorem ident_chars_loop_eq (l : List Char) :
    ReconUtils.ident_chars_loop l = .ok (l.all ReconUtils.identCharB) := by
  induction l with
  | nil => rfl
  | cons c cs ih =>
    unfold ReconUtils.ident_chars_loop
    rw [is_ident_char_singleton]
    cases h : ReconUtils.identCharB c
    · simp [h]
    · simp [h, ih]

/-- `ReconUtils.is_ident` never raises and computes `is_identB`. -/
theorem is_ident_eq (s : String) : ReconUtils.is_ident s = .ok (is_identB s) := by
  unfold ReconUtils.is_ident is_identB
  cases hs : s.toList with
  | nil => rfl
  | cons c cs =>
    show (match ReconUtils.is_ident_start_char (.str (String.singleton c)) with
      | Except.error e => Except.error e
      | Except.ok false => Except.ok false
      | Except.ok true => ReconUtils.ident_chars_loop (c :: cs))
      = Except.ok (ReconUtils.identStartCharB c && (c :: cs).all ReconUtils.identCharB)
    rw [is_ident_start_char_singleton]
    cases h : ReconUtils.identStartCharB c
    · simp
    · simp only [Bool.true_and]
      rw [ident_chars_loop_eq]

theorem identStartCharB_iff (c : Char) :
    ReconUtils.identStartCharB c = true ↔ specStartClass c := by
  unfold ReconUtils.identStartCharB specStartClass
  have hA : 'A'.toNat = 65 := rfl
  have hZ : 'Z'.toNat = 90 := rfl
  have ha : 'a'.toNat = 97 := rfl
  have hz : 'z'.toNat = 122 := rfl
  have hu : '_'.toNat = 95 := rfl
  rw [hA, hZ, ha, hz, hu]
  simp only [decide_eq_true_eq]
  omega

theorem identCharB_iff (c : Char) :
    ReconUtils.identCharB c = true ↔ specContClass c := by
  unfold ReconUtils.identCharB specContClass
  simp only [Bool.or_eq_true, decide_eq_true_eq]
  rw [identStartCharB_iff]
  unfold specStartClass
  have hA : 'A'.toNat = 65 := rfl
  have hZ : 'Z'.toNat = 90 := rfl
  have ha : 'a'.toNat = 97 := rfl
  have hz : 'z'.toNat = 122 := rfl
  have hu : '_'.toNat = 95 := rfl
  have h0 : '0'.toNat = 48 := rfl
  have h9 : '9'.toNat = 57 := rfl
  have hm : '-'.toNat = 45 := rfl
  rw [hA, hZ, ha, hz, hu, h0, h9, hm]
  omega

/-- C8: `is_ident(s)` returns True if and only if `s` is non-empty, its
first character is in `[A-Za-z_]`, and every remaining character is in
`[A-Za-z0-9_-]`.  (The scan never raises, so the result is an ordinary
boolean.) -/
theorem C8_is_ident_characterisation (s : String) :
    ReconUtils.is_ident s = .ok true
      ↔ ∃ c cs, s.toList = c :: cs ∧ specStartClass c ∧ ∀ d ∈ cs, specContClass d := by
  rw [is_ident_eq]
  simp only [Except.ok.injEq]
  unfold is_identB
  cases hs : s.toList with
  | nil =>
    simp only [Bool.false_eq_true, false_iff]
    rintro ⟨c, cs, heq, -, -⟩
    exact List.noConfusion heq
  | cons c cs =>
    simp only [Bool.and_eq_true, List.all_cons, List.all_eq_true,
      identStartCharB_iff, identCharB_iff]
    constructor
    · rintro ⟨hstart, -, htail⟩
      exact ⟨c, cs, rfl, hstart, htail⟩
    · rintro ⟨c', cs', heq, hstart, htail⟩
      injection heq with h1 h2
      subst h1
      subst h2
      exact ⟨hstart, Or.inl hstart, htail⟩

/-- C7 counterexample: on the truthy non-character input `2.5` (a float),
`is_digit` raises `TypeError` (the code compares `None` with `<=`) instead
of returning `False` as the claim states. -/
theorem C7_counterexample :
    nonCharacter (.float 5 1) = true
      ∧ ReconUtils.is_digit (.float 5 1) = .error .typeError
      ∧ ¬ ReconUtils.is_digit (.float 5 1) = .ok false := by
  refine ⟨rfl, rfl, ?_⟩
  intro h
  rw [show ReconUtils.is_digit (.float 5 1) = .error .typeError from rfl] at h
  exact Except.noConfusion h

/-- C7 amended: for every non-character input, `to_ord` yields the sentinel
`None`; `is_ident_char` and `is_space` then return `False` without error;
`is_digit` and `is_ident_start_char` return `False` only when the input is
falsy and raise `TypeError` when it is truthy (such as a non-zero float). -/
theorem C7_amended (v : PyVal) (h : nonCharacter v = true) :
    ReconUtils.to_ord v = .ok Option.none
      ∧ ReconUtils.is_ident_char v = .ok false
      ∧ ReconUtils.is_space v = .ok false
      ∧ (pyTruthy v = false →
          ReconUtils.is_digit v = .ok false ∧ ReconUtils.is_ident_start_char v = .ok false)
      ∧ (pyTruthy v = true →
          ReconUtils.is_digit v = .error .typeError
            ∧ ReconUtils.is_ident_start_char v = .error .typeError) := by
  cases v with
  | str s => exact absurd h (by simp [nonCharacter])
  | int n => exact absurd h (by simp [nonCharacter])
  | float m k =>
    by_cases hT : pyTruthy (.float m k) = true
    · refine ⟨rfl, ?_, ?_, ?_, ?_⟩
      · simp [ReconUtils.is_ident_char, hT, ReconUtils.to_ord, optToPy,
          ReconUtils.is_digit, ReconUtils.is_ident_start_char, pyTruthy]
      · simp [ReconUtils.is_space, hT, ReconUtils.to_ord]
      · intro hF; rw [hT] at hF; exact Bool.noConfusion hF
      · intro _
        exact ⟨by simp [ReconUtils.is_digit, hT, ReconUtils.to_ord],
          by simp [ReconUtils.is_ident_start_char, hT, ReconUtils.to_ord]⟩
    · rw [Bool.not_eq_true] at hT
      refine ⟨rfl, ?_, ?_, ?_, ?_⟩
      · simp [ReconUtils.is_ident_char, hT]
      · simp [ReconUtils.is_space, hT]
      · intro _
        exact ⟨by simp [ReconUtils.is_digit, hT],
          by simp [ReconUtils.is_ident_start_char, hT]⟩
      · intro hF; rw [hT] at hF; exact Bool.noConfusion hF
  | none =>
    refine ⟨rfl, rfl, rfl, ?_, ?_⟩
    · intro _; exact ⟨rfl, rfl⟩
    · intro hF; exact Bool.noConfusion hF

/-- Witness for C7 amended at the concrete input `2.5`. -/
theorem C7_amended_witness :
    nonCharacter (.float 5 1) = true
      ∧ (ReconUtils.to_ord (.float 5 1) = .ok Option.none
          ∧ ReconUtils.is_ident_char (.float 5 1) = .ok false
          ∧ ReconUtils.is_space (.float 5 1) = .ok false
          ∧ (pyTruthy (.float 5 1) = false →
              ReconUtils.is_digit (.float 5 1) = .ok false
                ∧ ReconUtils.is_ident_start_char (.float 5 1) = .ok false)
          ∧ (pyTruthy (.float 5 1) = true →
              ReconUtils.is_digit (.float 5 1) = .error .typeError
                ∧ ReconUtils.is_ident_start_char (.float 5 1) = .error .typeError)) :=
  ⟨rfl, C7_amended (.float 5 1) rfl⟩

/-- C10: the input cursor is total.  `head` never raises: it returns the
character at the current index while the index is inside the message and
the empty string otherwise; `step` always increments the index by exactly
one, even past the end, and after stepping past the end `head` returns the
empty string and `is_cont` returns `False`.  Since `head` leaves the state
unchanged and `step` only increments the index, this state-indexed form
covers every interleaving of the two calls. -/
theorem C10_input_cursor_total (m : InputMessage) :
    (∃ s, InputMessage.head m = .ok s)
      ∧ (∀ h : m.index < m.message.length,
          InputMessage.head m = .ok (String.singleton (m.message.get ⟨m.index, h⟩)))
      ∧ (m.message.length ≤ m.index → InputMessage.head m = .ok "")
      ∧ (∃ s, InputMessage.step m = .ok (s, { m with index := m.index + 1 }))
      ∧ (m.message.length ≤ m.index + 1 →
          InputMessage.step m = .ok ("", { m with index := m.index + 1 })
            ∧ InputMessage.is_cont { m with index := m.index + 1 } = false) := by
  have hhead : ∀ m2 : InputMessage,
      InputMessage.head m2
        = .ok (if h : m2.index < m2.message.length
            then String.singleton (m2.message.get ⟨m2.index, h⟩) else "") := by
    intro m2
    unfold InputMessage.head InputMessage.is_cont pyStrIndex
    by_cases h : m2.index < m2.message.length
    · have : ¬ m2.index ≥ m2.message.length := by omega
      simp [h, this]
    · have : m2.index ≥ m2.message.length := by omega
      simp [h, this]
  refine ⟨?_, ?_, ?_, ?_, ?_⟩
  · exact ⟨_, hhead m⟩
  · intro h
    rw [hhead m]
    simp [h]
  · intro h
    rw [hhead m]
    have : ¬ m.index < m.message.length := by omega
    simp [this]
  · refine ⟨if h : m.index + 1 < m.message.length
        then String.singleton (m.message.get ⟨m.index + 1, h⟩) else "", ?_⟩
    unfold InputMessage.step
    rw [hhead { m with index := m.index + 1 }]
  · intro h
    have hlt : ¬ (m.index + 1 < m.message.length) := by omega
    constructor
    · unfold InputMessage.step
      rw [hhead { m with index := m.index + 1 }]
      simp [hlt]
    · unfold InputMessage.is_cont
      have hge : m.index + 1 ≥ m.message.length := h
      simp [hge]

/-- Witness for C10 on the concrete message `"ab"` with the cursor on the
final character. -/
theorem C10_input_cursor_total_witness :
    InputMessage.head ⟨['a', 'b'], 1⟩ = .ok "b"
      ∧ InputMessage.step ⟨['a', 'b'], 1⟩ = .ok ("", ⟨['a', 'b'], 2⟩)
      ∧ InputMessage.is_cont ⟨['a', 'b'], 2⟩ = false := by
  obtain ⟨-, h2, -, -, h5⟩ := C10_input_cursor_total ⟨['a', 'b'], 1⟩
  refine ⟨?_, ?_, ?_⟩
  · have := h2 (by decide)
    simpa using this
  · exact (h5 (by decide)).1
  · exact (h5 (by decide)).2

/-- C1: evaluation of the writer and the parser model at the failing
input `Num 0`.  The value `Num 0` is producible by the parser (it is the
parse of the text `0`), the writer emits the empty string for it because
`NumberWriter.write` skips falsy values, and parsing the empty string
yields `Absent`, which differs from `Num 0` — so
`parse(write(v)) == v` fails at `v = Num 0`. -/
theorem C1_roundtrip_fails_at_zero :
    parse_literal_model "0" = some (.num (.int 0))
      ∧ write_value (.num (.int 0)) = .ok (some "")
      ∧ parse_literal_model "" = some .absent
      ∧ Item.absent ≠ Item.num (.int 0) := by
  refine ⟨rfl, rfl, rfl, ?_⟩
  intro h
  exact Item.noConfusion h

/-- C2: evaluation of `AttrWriter.write` at the claim's inputs.
`Attr("tag", Extant)` is written `@tag` as the claim states, but
`Attr("tag", Record[])` is written `@tag(` — the early `return output`
taken when the inner value's size is `0` fires right after the opening
parenthesis, so the closing parenthesis claimed by the spec is never
appended. -/
theorem C2_attr_writer_empty_value :
    write_attr (.text "tag") .extant = .ok "@tag"
      ∧ write_attr (.text "tag") (.record .nil) = .ok "@tag("
      ∧ "@tag(" ≠ "@tag()" := by
  refine ⟨rfl, rfl, ?_⟩
  intro h
  exact absurd (congrArg String.length h) (by decide)

/-- C3: `NumberWriter.write` produces the empty string exactly on the
zero values (`int 0` and any float with zero mantissa) and otherwise
appends `str(value)` — the decimal text of the number. -/
theorem C3_number_writer_zero_empty (n m : Int) (k j : Nat)
    (hn : n ≠ 0) (hm : m ≠ 0) :
    NumberWriter.write (.int 0) = ""
      ∧ NumberWriter.write (.float 0 j) = ""
      ∧ NumberWriter.write (.int n) = pyNumStr (.int n)
      ∧ NumberWriter.write (.float m k) = pyNumStr (.float m k) := by
  refine ⟨rfl, ?_, ?_, ?_⟩
  · simp [NumberWriter.write, pyNumTruthy]
  · simp [NumberWriter.write, pyNumTruthy, hn]
  · simp [NumberWriter.write, pyNumTruthy, hm]

/-- Witness for C3 at `7` and `0.5` (`1 / 2 ^ 1`). -/
theorem C3_number_writer_zero_empty_witness :
    NumberWriter.write (.int 0) = ""
      ∧ NumberWriter.write (.float 0 1) = ""
      ∧ NumberWriter.write (.int 7) = pyNumStr (.int 7)
      ∧ NumberWriter.write (.float 1 1) = pyNumStr (.float 1 1) :=
  C3_number_writer_zero_empty 7 1 1 1 (by decide) (by decide)

/-- C4 counterexample: an `ExponentialStrategy` whose limit equals its
completed retry count still retries — `retry()` returns `True` at
`retries_limit = 0`, `retries = 0` although `retries < limit` fails, so
the exponential strategy is NOT bounded "in the same way" as the interval
strategy, which returns `False` there. -/
theorem C4_counterexample :
    (ExponentialStrategy.retry ⟨some 0, 16, 0⟩).1 = true
      ∧ ¬ (((⟨some 0, 16, 0⟩ : ExponentialStrategy).retries : Int) < 0)
      ∧ (IntervalStrategy.retry ⟨some 0, 3, 0⟩).1 = false := by
  refine ⟨rfl, ?_, rfl⟩
  decide

/-- C4 amended: the base strategy returns `False` immediately without
sleeping; the interval strategy retries (sleeping `delay` and incrementing
its counter) iff the limit is absent or the completed retries are strictly
below it; the exponential strategy retries iff the limit is absent or the
completed retries are at most the limit (one attempt more than the
interval strategy allows), sleeping `min(2 ^ retries, max_interval)`. -/
theorem C4_amended (i : IntervalStrategy) (e : ExponentialStrategy) :
    RetryStrategy.retry = (false, (Option.none : Option Int))
      ∧ ((IntervalStrategy.retry i).1 = true
          ↔ (i.retries_limit = Option.none
              ∨ ∃ l, i.retries_limit = some l ∧ (i.retries : Int) < l))
      ∧ ((IntervalStrategy.retry i).1 = true →
          IntervalStrategy.retry i = (true, some i.delay, { i with retries := i.retries + 1 }))
      ∧ ((IntervalStrategy.retry i).1 = false →
          IntervalStrategy.retry i = (false, Option.none, i))
      ∧ ((ExponentialStrategy.retry e).1 = true
          ↔ (e.retries_limit = Option.none
              ∨ ∃ l, e.retries_limit = some l ∧ (e.retries : Int) ≤ l))
      ∧ ((ExponentialStrategy.retry e).1 = true →
          ExponentialStrategy.retry e
            = (true, some (min ((2 : Int) ^ e.retries) e.max_interval),
                { e with retries := e.retries + 1 }))
      ∧ ((ExponentialStrategy.retry e).1 = false →
          ExponentialStrategy.retry e = (false, Option.none, e)) := by
  refine ⟨rfl, ?_, ?_, ?_, ?_, ?_, ?_⟩
  · unfold IntervalStrategy.retry
    cases hl : i.retries_limit with
    | none => simp
    | some l =>
      by_cases h : l > (i.retries : Int)
      · simp [h]
        try omega
      · simp [h]
        try omega
  · unfold IntervalStrategy.retry
    cases hl : i.retries_limit with
    | none => intro _; rfl
    | some l =>
      by_cases h : l > (i.retries : Int)
      · simp [h]
      · simp [h]
  · unfold IntervalStrategy.retry
    cases hl : i.retries_limit with
    | none => simp
    | some l =>
      by_cases h : l > (i.retries : Int)
      · simp [h]
      · simp [h]
  · unfold ExponentialStrategy.retry
    cases hl : e.retries_limit with
    | none => simp
    | some l =>
      by_cases h : l ≥ (e.retries : Int)
      · simp [h]
        try omega
      · simp [h]
        try omega
  · unfold ExponentialStrategy.retry
    cases hl : e.retries_limit with
    | none => intro _; rfl
    | some l =>
      by_cases h : l ≥ (e.retries : Int)
      · simp [h]
      · simp [h]
  · unfold ExponentialStrategy.retry
    cases hl : e.retries_limit with
    | none => simp
    | some l =>
      by_cases h : l ≥ (e.retries : Int)
      · simp [h]
      · simp [h]

/-- Witness for C4 amended: a below-limit interval retry, an at-limit
exponential retry, and an at-limit interval refusal. -/
theorem C4_amended_witness :
    IntervalStrategy.retry ⟨some 2, 3, 0⟩ = (true, some 3, ⟨some 2, 3, 1⟩)
      ∧ ExponentialStrategy.retry ⟨some 0, 16, 0⟩ = (true, some 1, ⟨some 0, 16, 1⟩)
      ∧ IntervalStrategy.retry ⟨some 0, 3, 0⟩ = (false, Option.none, ⟨some 0, 3, 0⟩) := by
  obtain ⟨-, -, h3, -, -, h6, -⟩ := C4_amended ⟨some 2, 3, 0⟩ ⟨some 0, 16, 0⟩
  obtain ⟨-, -, -, h4, -, -, -⟩ := C4_amended ⟨some 0, 3, 0⟩ ⟨some 0, 16, 0⟩
  exact ⟨h3 (by decide), h6 (by decide), h4 (by decide)⟩

/-- C5 counterexample: create a connection through a view with both flags
`False`, then subscribe a second view with `keep_linked = True` to the
same host.  `should_reconnect()` still returns `False` although the
logical OR of the current subscribers' flags is `True` — the connection's
flags are fixed at construction, not the OR over subscribers. -/
theorem C5_counterexample :
    (assocGet (ConnectionPool._add_downlink_view
        (ConnectionPool._add_downlink_view ⟨[], .base⟩ ⟨"h", "ws", false, false⟩)
        ⟨"h", "ws", true, false⟩).connections "h").map
      (fun c => (WSConnection.should_reconnect c,
        c.subscribers.any (fun v => v.keep_linked)
          || c.subscribers.any (fun v => v.keep_synced)))
      = some (false, true) := rfl

/-- C5 amended: `should_reconnect()` returns true iff
`keep_linked OR keep_synced`, where these are the construction-time flags
of the connection — the flags passed by the view whose request created it
(`_get_connection` only forwards the requester's flags when it constructs
a new connection); subscribing further views, and opening the connection,
leave both flags unchanged, so they are not in general the OR over the
current subscribers (see the counterexample). -/
theorem C5_amended (c : WSConnection) (v : DownlinkViewRef)
    (p : ConnectionPool) (host scheme : String) (kl ks : Bool) :
    (WSConnection.should_reconnect c = (c.keep_linked || c.keep_synced))
      ∧ ((WSConnection._subscribe c v).keep_linked = c.keep_linked
          ∧ (WSConnection._subscribe c v).keep_synced = c.keep_synced)
      ∧ ((mkWSConnection host scheme kl ks p.retry_strategy).keep_linked = kl
          ∧ (mkWSConnection host scheme kl ks p.retry_strategy).keep_synced = ks) := by
  refine ⟨rfl, ⟨?_, ?_⟩, rfl, rfl⟩
  · unfold WSConnection._subscribe WSConnection.open_success
    by_cases h0 : c.subscribers.length = 0
    · by_cases hc : c.status = .CLOSED
      · simp [h0, hc]
      · simp [h0, hc]
    · simp [h0]
  · unfold WSConnection._subscribe WSConnection.open_success
    by_cases h0 : c.subscribers.length = 0
    · by_cases hc : c.status = .CLOSED
      · simp [h0, hc]
      · simp [h0, hc]
    · simp [h0]

/-- C6: `_get_connection` returns the pooled connection iff one is present
for the host and its status is not `CLOSED`, leaving the pool unchanged;
otherwise it constructs a new connection from the requested parameters,
stores it in the pool under the host URI and returns it.  The function
never calls `_open`, and the freshly constructed connection is `CLOSED`
with no websocket — so the call never opens the WebSocket. -/
theorem C6_get_connection (p : ConnectionPool) (host scheme : String) (kl ks : Bool) :
    (∀ c0, assocGet p.connections host = some c0 → c0.status ≠ .CLOSED →
        ConnectionPool._get_connection p host scheme kl ks = (c0, p))
      ∧ (∀ c0, assocGet p.connections host = some c0 → c0.status = .CLOSED →
          ConnectionPool._get_connection p host scheme kl ks
            = (mkWSConnection host scheme kl ks p.retry_strategy,
               { p with connections := (assocPut p.connections host
                   (mkWSConnection host scheme kl ks p.retry_strategy)) }))
      ∧ (assocGet p.connections host = Option.none →
          ConnectionPool._get_connection p host scheme kl ks
            = (mkWSConnection host scheme kl ks p.retry_strategy,
               { p with connections := (assocPut p.connections host
                   (mkWSConnection host scheme kl ks p.retry_strategy)) }))
      ∧ (mkWSConnection host scheme kl ks p.retry_strategy).status = .CLOSED
      ∧ (mkWSConnection host scheme kl ks p.retry_strategy).has_websocket = false := by
  refine ⟨?_, ?_, ?_, rfl, rfl⟩
  · intro c0 hsome hne
    unfold ConnectionPool._get_connection
    rw [hsome]
    simp [hne]
  · intro c0 hsome hcl
    unfold ConnectionPool._get_connection
    rw [hsome]
    simp [hcl]
  · intro hnone
    unfold ConnectionPool._get_connection
    rw [hnone]

/-- Witness for C6: an idle pooled connection is returned untouched; a
missing host gets a freshly constructed `CLOSED` connection stored under
its URI. -/
theorem C6_get_connection_witness :
    ConnectionPool._get_connection
        ⟨[("h", { mkWSConnection "h" "ws" false false .base with status := .IDLE })], .base⟩
        "h" "ws" true true
      = ({ mkWSConnection "h" "ws" false false .base with status := .IDLE },
         ⟨[("h", { mkWSConnection "h" "ws" false false .base with status := .IDLE })], .base⟩)
      ∧ ConnectionPool._get_connection ⟨[], .base⟩ "g" "wss" true false
        = (mkWSConnection "g" "wss" true false .base,
           ⟨[("g", mkWSConnection "g" "wss" true false .base)], .base⟩) := by
  obtain ⟨h1, -, -, -, -⟩ := C6_get_connection
    ⟨[("h", { mkWSConnection "h" "ws" false false .base with status := .IDLE })], .base⟩
    "h" "ws" true true
  obtain ⟨-, -, h3, -, -⟩ := C6_get_connection ⟨[], .base⟩ "g" "wss" true false
  constructor
  · exact h1 _ rfl (by simp [mkWSConnection])
  · exact h3 rfl

/-- C9: `get` and `set` on a view that is not open raise an immediate
`RuntimeError` and leave the view (and hence its model and scheduled
queue) unchanged — `get` is read-only by construction and `set` returns
the state untouched; on an open view, `get(wait_sync=False)` returns the
model's current value and `set(value)` succeeds, scheduling exactly one
command message for the view's node and lane. -/
theorem C9_closed_view_errors (view : ValueDownlinkView) (x : PyVal) :
    (view.is_open = false →
        ValueDownlinkView.get view false = .raised .runtimeError
          ∧ ValueDownlinkView.get view true = .raised .runtimeError
          ∧ ValueDownlinkView.set view x = (.error .runtimeError, view))
      ∧ (view.is_open = true →
          ValueDownlinkView.get view false = .value view.model.value
            ∧ ValueDownlinkView.set view x
                = (.ok (), { view with scheduled :=
                    view.scheduled ++ [⟨view.node_uri, view.lane_uri, x⟩] })) := by
  constructor
  · intro h
    refine ⟨?_, ?_, ?_⟩
    · unfold ValueDownlinkView.get
      simp [h]
    · unfold ValueDownlinkView.get
      simp [h]
    · unfold ValueDownlinkView.set
      simp [h]
  · intro h
    constructor
    · unfold ValueDownlinkView.get
      simp [h]
    · unfold ValueDownlinkView.set
      simp [h]

/-- Witness for C9 on a concrete closed view and a concrete open view. -/
theorem C9_closed_view_errors_witness :
    ValueDownlinkView.get ⟨"n", "l", false, ⟨.none, false⟩, []⟩ false
        = .raised .runtimeError
      ∧ ValueDownlinkView.set ⟨"n", "l", false, ⟨.none, false⟩, []⟩ (.int 5)
          = (.error .runtimeError, ⟨"n", "l", false, ⟨.none, false⟩, []⟩)
      ∧ ValueDownlinkView.get ⟨"n", "l", true, ⟨.int 3, true⟩, []⟩ false
          = .value (.int 3)
      ∧ ValueDownlinkView.set ⟨"n", "l", true, ⟨.int 3, true⟩, []⟩ (.int 5)
          = (.ok (), ⟨"n", "l", true, ⟨.int 3, true⟩, [⟨"n", "l", .int 5⟩]⟩) := by
  obtain ⟨hc, -⟩ := C9_closed_view_errors ⟨"n", "l", false, ⟨.none, false⟩, []⟩ (.int 5)
  obtain ⟨-, ho⟩ := C9_closed_view_errors ⟨"n", "l", true, ⟨.int 3, true⟩, []⟩ (.int 5)
  obtain ⟨h1, -, h3⟩ := hc rfl
  obtain ⟨h4, h5⟩ := ho rfl
  exact ⟨h1, h3, h4, h5⟩

